import Mathlib

/-!
Verification of `crates/primitives/src/specification.rs` (revm): the
`SpecId` hardfork identifier enum, its numeric encoding and decoding,
name parsing, and the two activation checks (`SpecId::enabled` and the
`Spec` trait's default `enabled` method with the Optimism side-chain
exception).  The `optimism` feature is taken as compiled in, so the
`BEDROCK` and `REGOLITH` variants are present.
-/

/-- The `SpecId` enum: one variant per published hardfork identifier,
including the Optimism side-chain variants `BEDROCK` and `REGOLITH`
(feature `optimism` compiled in). -/
inductive SpecId where
  | FRONTIER
  | FRONTIER_THAWING
  | HOMESTEAD
  | DAO_FORK
  | TANGERINE
  | SPURIOUS_DRAGON
  | BYZANTIUM
  | CONSTANTINOPLE
  | PETERSBURG
  | ISTANBUL
  | MUIR_GLACIER
  | BERLIN
  | LONDON
  | ARROW_GLACIER
  | GRAY_GLACIER
  | MERGE
  | SHANGHAI
  | CANCUN
  | LATEST
  | BEDROCK
  | REGOLITH
deriving DecidableEq, Fintype

/-- The numeric discriminant of each variant (`repr(u8)` with explicit
values): `x as u8` in the source.  The derived `Ord`/`PartialOrd` on the
Rust enum compare exactly these discriminants. -/
def SpecId.toU8 : SpecId → Nat
  | .FRONTIER => 0
  | .FRONTIER_THAWING => 1
  | .HOMESTEAD => 2
  | .DAO_FORK => 3
  | .TANGERINE => 4
  | .SPURIOUS_DRAGON => 5
  | .BYZANTIUM => 6
  | .CONSTANTINOPLE => 7
  | .PETERSBURG => 8
  | .ISTANBUL => 9
  | .MUIR_GLACIER => 10
  | .BERLIN => 11
  | .LONDON => 12
  | .ARROW_GLACIER => 13
  | .GRAY_GLACIER => 14
  | .MERGE => 15
  | .SHANGHAI => 16
  | .CANCUN => 17
  | .LATEST => 18
  | .BEDROCK => 128
  | .REGOLITH => 129

/-- `SpecId::try_from_u8` via `enumn::N`: returns the variant whose
discriminant equals the raw byte, `None` otherwise. -/
def SpecId.try_from_u8 : Nat → Option SpecId
  | 0 => some .FRONTIER
  | 1 => some .FRONTIER_THAWING
  | 2 => some .HOMESTEAD
  | 3 => some .DAO_FORK
  | 4 => some .TANGERINE
  | 5 => some .SPURIOUS_DRAGON
  | 6 => some .BYZANTIUM
  | 7 => some .CONSTANTINOPLE
  | 8 => some .PETERSBURG
  | 9 => some .ISTANBUL
  | 10 => some .MUIR_GLACIER
  | 11 => some .BERLIN
  | 12 => some .LONDON
  | 13 => some .ARROW_GLACIER
  | 14 => some .GRAY_GLACIER
  | 15 => some .MERGE
  | 16 => some .SHANGHAI
  | 17 => some .CANCUN
  | 18 => some .LATEST
  | 128 => some .BEDROCK
  | 129 => some .REGOLITH
  | _ => none

/-- `impl From<&str> for SpecId`: exact string match on the recognized
hardfork names, every other string falling through to `LATEST`. -/
def SpecId.from_name (name : String) : SpecId :=
  if name = "Frontier" then .FRONTIER
  else if name = "Homestead" then .HOMESTEAD
  else if name = "Tangerine" then .TANGERINE
  else if name = "Spurious" then .SPURIOUS_DRAGON
  else if name = "Byzantium" then .BYZANTIUM
  else if name = "Constantinople" then .CONSTANTINOPLE
  else if name = "Petersburg" then .PETERSBURG
  else if name = "Istanbul" then .ISTANBUL
  else if name = "MuirGlacier" then .MUIR_GLACIER
  else if name = "Berlin" then .BERLIN
  else if name = "London" then .LONDON
  else if name = "Merge" then .MERGE
  else if name = "Shanghai" then .SHANGHAI
  else if name = "Cancun" then .CANCUN
  else if name = "Bedrock" then .BEDROCK
  else if name = "Regolith" then .REGOLITH
  else .LATEST

/-- The names the `From<&str>` match arm list recognizes, in source
order. -/
def recognizedNames : List String :=
  ["Frontier", "Homestead", "Tangerine", "Spurious", "Byzantium",
   "Constantinople", "Petersburg", "Istanbul", "MuirGlacier", "Berlin",
   "London", "Merge", "Shanghai", "Cancun", "Bedrock", "Regolith"]

/-- `SpecId::enabled(our, other)`: the bare discriminant comparison
`our as u8 >= other as u8`. -/
def SpecId.enabled (our other : SpecId) : Bool :=
  decide (other.toU8 ≤ our.toU8)

/-- The `Spec` trait's default `enabled` method, parameterized by the
implementing marker type's `SPEC_ID` constant (the method's body depends
on `Self` only through `Self::SPEC_ID`).  With the `optimism` feature
compiled in, a Bedrock/Regolith current spec refuses every non-Optimism
queried id strictly past `MERGE`; otherwise the discriminant comparison
decides. -/
def Spec.enabled (SELF_SPEC_ID spec_id : SpecId) : Bool :=
  let is_self_optimism :=
    decide (SELF_SPEC_ID = SpecId.BEDROCK) || decide (SELF_SPEC_ID = SpecId.REGOLITH)
  let input_not_optimism :=
    decide (spec_id ≠ SpecId.BEDROCK) && decide (spec_id ≠ SpecId.REGOLITH)
  let after_merge := decide (SpecId.MERGE.toU8 < spec_id.toU8)
  if is_self_optimism && input_not_optimism && after_merge then false
  else decide (spec_id.toU8 ≤ SELF_SPEC_ID.toU8)

/-- The `SPEC_ID` constants of the marker types generated by the `spec!`
macro invocations, in source order (`FrontierSpec` through
`RegolithSpec`; variants with no invocation, such as `FRONTIER_THAWING`
or `ARROW_GLACIER`, do not appear). -/
def specBindings : List SpecId :=
  [.FRONTIER, .HOMESTEAD, .TANGERINE, .SPURIOUS_DRAGON, .BYZANTIUM,
   .PETERSBURG, .ISTANBUL, .BERLIN, .LONDON, .MERGE, .SHANGHAI, .CANCUN,
   .LATEST, .BEDROCK, .REGOLITH]

/-- Side-chain band membership: the Optimism variants. -/
def SpecId.isOptimism (x : SpecId) : Bool :=
  decide (x = SpecId.BEDROCK) || decide (x = SpecId.REGOLITH)

/-- Both identifiers lie in the same band: both mainline, or both
side-chain. -/
def sameBand (a b : SpecId) : Prop :=
  a.isOptimism = b.isOptimism

instance (a b : SpecId) : Decidable (sameBand a b) := by
  unfold sameBand
  infer_instance

/-- The recognized name/identifier pairs of the `From<&str>` match arms,
in source order. -/
def nameTable : List (String × SpecId) :=
  [("Frontier", .FRONTIER), ("Homestead", .HOMESTEAD),
   ("Tangerine", .TANGERINE), ("Spurious", .SPURIOUS_DRAGON),
   ("Byzantium", .BYZANTIUM), ("Constantinople", .CONSTANTINOPLE),
   ("Petersburg", .PETERSBURG), ("Istanbul", .ISTANBUL),
   ("MuirGlacier", .MUIR_GLACIER), ("Berlin", .BERLIN),
   ("London", .LONDON), ("Merge", .MERGE), ("Shanghai", .SHANGHAI),
   ("Cancun", .CANCUN), ("Bedrock", .BEDROCK), ("Regolith", .REGOLITH)]

/-- Claim C1: when the current marker's SPEC_ID is a side-chain
identifier (BEDROCK or REGOLITH) and the queried identifier is neither
BEDROCK nor REGOLITH and ranks strictly past MERGE, `Spec::enabled` is
false regardless of rank; in particular `BedrockSpec::enabled` is false
on SHANGHAI, CANCUN and LATEST, and true on every identifier of rank at
most MERGE. -/
theorem c1_side_chain_containment (s q : SpecId)
    (hs : s = SpecId.BEDROCK ∨ s = SpecId.REGOLITH)
    (hq1 : q ≠ SpecId.BEDROCK) (hq2 : q ≠ SpecId.REGOLITH)
    (hq3 : SpecId.MERGE.toU8 < q.toU8) :
    Spec.enabled s q = false ∧
    Spec.enabled SpecId.BEDROCK SpecId.SHANGHAI = false ∧
    Spec.enabled SpecId.BEDROCK SpecId.CANCUN = false ∧
    Spec.enabled SpecId.BEDROCK SpecId.LATEST = false ∧
    (∀ m : SpecId, m.toU8 ≤ SpecId.MERGE.toU8 →
      Spec.enabled SpecId.BEDROCK m = true) := by
  revert s q
  decide

/-- Witness for C1 at s = BEDROCK, q = SHANGHAI. -/
theorem c1_side_chain_containment_witness :
    (SpecId.BEDROCK = SpecId.BEDROCK ∨ SpecId.BEDROCK = SpecId.REGOLITH) ∧
    SpecId.SHANGHAI ≠ SpecId.BEDROCK ∧ SpecId.SHANGHAI ≠ SpecId.REGOLITH ∧
    SpecId.MERGE.toU8 < SpecId.SHANGHAI.toU8 ∧
    Spec.enabled SpecId.BEDROCK SpecId.SHANGHAI = false :=
  ⟨Or.inl rfl, by decide, by decide, by decide,
   (c1_side_chain_containment SpecId.BEDROCK SpecId.SHANGHAI (Or.inl rfl)
      (by decide) (by decide) (by decide)).1⟩

/-- Claim C2: on any two identifiers of the same band the activation
check is exactly the discriminant comparison: `SpecId::enabled(a, b)`
equals `a as u8 >= b as u8`, and the `Spec` trait method agrees with
it. -/
theorem c2_same_band_rank_rule (a b : SpecId) (h : sameBand a b) :
    SpecId.enabled a b = decide (b.toU8 ≤ a.toU8) ∧
    Spec.enabled a b = SpecId.enabled a b := by
  revert a b
  decide

/-- Witness for C2 at a = LONDON, b = BERLIN. -/
theorem c2_same_band_rank_rule_witness :
    sameBand SpecId.LONDON SpecId.BERLIN ∧
    (SpecId.enabled SpecId.LONDON SpecId.BERLIN =
       decide (SpecId.BERLIN.toU8 ≤ SpecId.LONDON.toU8) ∧
     Spec.enabled SpecId.LONDON SpecId.BERLIN =
       SpecId.enabled SpecId.LONDON SpecId.BERLIN) :=
  ⟨by decide, c2_same_band_rank_rule SpecId.LONDON SpecId.BERLIN (by decide)⟩

/-- Claim C3 as stated is false: under the derived discriminant ordering
the side-chain identifier BEDROCK (discriminant 128) compares strictly
greater than LATEST (discriminant 18), and
`SpecId::enabled(LATEST, BEDROCK)` is false. -/
theorem c3_terminal_counterexample :
    ¬ (SpecId.BEDROCK.toU8 ≤ SpecId.LATEST.toU8 ∧
       SpecId.enabled SpecId.LATEST SpecId.BEDROCK = true) := by
  decide

/-- Claim C3 (amended): LATEST compares greater than or equal to every
mainline identifier and `SpecId::enabled(LATEST, x)` is true for every
mainline x; for the side-chain identifiers BEDROCK and REGOLITH, whose
discriminants exceed 18, the comparison and the check both fail. -/
theorem c3_terminal_is_newest_mainline (x : SpecId)
    (hx : x.isOptimism = false) :
    x.toU8 ≤ SpecId.LATEST.toU8 ∧
    SpecId.enabled SpecId.LATEST x = true ∧
    SpecId.enabled SpecId.LATEST SpecId.BEDROCK = false ∧
    SpecId.enabled SpecId.LATEST SpecId.REGOLITH = false := by
  revert x
  decide

/-- Witness for C3 (amended) at x = CANCUN. -/
theorem c3_terminal_is_newest_mainline_witness :
    SpecId.CANCUN.isOptimism = false ∧
    SpecId.CANCUN.toU8 ≤ SpecId.LATEST.toU8 :=
  ⟨by decide, (c3_terminal_is_newest_mainline SpecId.CANCUN (by decide)).1⟩

/-- Claim C4: decoding inverts the numeric encoding on every published
identifier: `SpecId::try_from_u8(x as u8) == Some(x)`. -/
theorem c4_decode_encode_roundtrip :
    ∀ x : SpecId, SpecId.try_from_u8 x.toU8 = some x := by
  decide

/-- Claim C5: every raw byte that encodes no published identifier
(19..=127 and 130..=255) decodes to `None`. -/
theorem c5_decode_unpublished_absent (n : Nat)
    (h : (19 ≤ n ∧ n ≤ 127) ∨ (130 ≤ n ∧ n ≤ 255)) :
    SpecId.try_from_u8 n = none := by
  rcases h with ⟨h1, h2⟩ | ⟨h1, h2⟩ <;> interval_cases n <;> rfl

/-- Witness for C5 at n = 19. -/
theorem c5_decode_unpublished_absent_witness :
    ((19 ≤ 19 ∧ 19 ≤ 127) ∨ (130 ≤ 19 ∧ 19 ≤ 255)) ∧
    SpecId.try_from_u8 19 = none :=
  ⟨Or.inl ⟨by decide, by decide⟩,
   c5_decode_unpublished_absent 19 (Or.inl ⟨by decide, by decide⟩)⟩

/-- Claim C6: name parsing is total: "Frontier" maps to FRONTIER, each
recognized name maps by exact match to its identifier, and every
unrecognized string (such as "unknown-garbage") maps to LATEST. -/
theorem c6_parse_total_fallback (s : String) (h : s ∉ recognizedNames) :
    SpecId.from_name s = SpecId.LATEST ∧
    SpecId.from_name "Frontier" = SpecId.FRONTIER ∧
    (∀ p ∈ nameTable, SpecId.from_name p.1 = p.2) := by
  have k : ∀ t, t ∈ recognizedNames → s ≠ t := fun t ht hc => h (by rw [hc]; exact ht)
  refine ⟨?_, by decide, by decide⟩
  simp only [SpecId.from_name,
    if_neg (k "Frontier" (by decide)), if_neg (k "Homestead" (by decide)),
    if_neg (k "Tangerine" (by decide)), if_neg (k "Spurious" (by decide)),
    if_neg (k "Byzantium" (by decide)), if_neg (k "Constantinople" (by decide)),
    if_neg (k "Petersburg" (by decide)), if_neg (k "Istanbul" (by decide)),
    if_neg (k "MuirGlacier" (by decide)), if_neg (k "Berlin" (by decide)),
    if_neg (k "London" (by decide)), if_neg (k "Merge" (by decide)),
    if_neg (k "Shanghai" (by decide)), if_neg (k "Cancun" (by decide)),
    if_neg (k "Bedrock" (by decide)), if_neg (k "Regolith" (by decide))]

/-- Witness for C6 at s = "unknown-garbage". -/
theorem c6_parse_total_fallback_witness :
    "unknown-garbage" ∉ recognizedNames ∧
    SpecId.from_name "unknown-garbage" = SpecId.LATEST :=
  ⟨by decide, (c6_parse_total_fallback "unknown-garbage" (by decide)).1⟩

/-- Claim C7: the side-chain exception never fires for a marker whose
SPEC_ID is mainline: for every binding other than BEDROCK and REGOLITH,
`Spec::enabled(q)` is the bare discriminant comparison for every q, and
in particular querying a side-chain identifier from a mainline current
yields false since discriminants 128 and 129 exceed all mainline
ones. -/
theorem c7_mainline_bare_comparison (s q : SpecId)
    (hs : s ∈ specBindings) (h1 : s ≠ SpecId.BEDROCK)
    (h2 : s ≠ SpecId.REGOLITH) :
    Spec.enabled s q = decide (q.toU8 ≤ s.toU8) ∧
    (q.isOptimism = true → Spec.enabled s q = false) := by
  revert s q
  decide

/-- Witness for C7 at s = MERGE, q = BEDROCK. -/
theorem c7_mainline_bare_comparison_witness :
    SpecId.MERGE ∈ specBindings ∧ SpecId.MERGE ≠ SpecId.BEDROCK ∧
    SpecId.MERGE ≠ SpecId.REGOLITH ∧
    Spec.enabled SpecId.MERGE SpecId.BEDROCK = false :=
  ⟨by decide, by decide, by decide,
   (c7_mainline_bare_comparison SpecId.MERGE SpecId.BEDROCK (by decide)
      (by decide) (by decide)).2 (by decide)⟩

/-- Claim C8 as stated is false: the name lookup is not onto the
published identifiers; no recognized name parses to ARROW_GLACIER. -/
theorem c8_name_lookup_counterexample :
    ¬ ∃ name ∈ recognizedNames, SpecId.from_name name = SpecId.ARROW_GLACIER := by
  decide

/-- Claim C8 (amended): distinct recognized names parse to distinct
identifiers, and the identifiers reached by parsing recognized names are
exactly the published ones other than FRONTIER_THAWING, DAO_FORK,
ARROW_GLACIER, GRAY_GLACIER and LATEST. -/
theorem c8_name_lookup_injective_image :
    (recognizedNames.map SpecId.from_name).Nodup ∧
    (∀ x : SpecId,
      (∃ name ∈ recognizedNames, SpecId.from_name name = x) ↔
      (x ≠ SpecId.FRONTIER_THAWING ∧ x ≠ SpecId.DAO_FORK ∧
       x ≠ SpecId.ARROW_GLACIER ∧ x ≠ SpecId.GRAY_GLACIER ∧
       x ≠ SpecId.LATEST)) := by
  decide

/-- Claim C9: the standalone `SpecId::enabled` has no side-chain
exception: it is the raw discriminant comparison on every pair, so
`SpecId::enabled(BEDROCK, SHANGHAI)`, `SpecId::enabled(BEDROCK, LATEST)`
and `SpecId::enabled(REGOLITH, CANCUN)` are all true while the trait
method `Spec::enabled` returns false on those inputs. -/
theorem c9_standalone_no_exception :
    (∀ our other : SpecId,
      SpecId.enabled our other = decide (other.toU8 ≤ our.toU8)) ∧
    SpecId.enabled SpecId.BEDROCK SpecId.SHANGHAI = true ∧
    SpecId.enabled SpecId.BEDROCK SpecId.LATEST = true ∧
    SpecId.enabled SpecId.REGOLITH SpecId.CANCUN = true ∧
    Spec.enabled SpecId.BEDROCK SpecId.SHANGHAI = false ∧
    Spec.enabled SpecId.BEDROCK SpecId.LATEST = false ∧
    Spec.enabled SpecId.REGOLITH SpecId.CANCUN = false := by
  decide

/-- Claim C10: for every marker binding whose SPEC_ID is mainline, the
trait method and the standalone function agree on every queried
identifier. -/
theorem c10_trait_standalone_agree (s q : SpecId)
    (hs : s ∈ specBindings) (h1 : s ≠ SpecId.BEDROCK)
    (h2 : s ≠ SpecId.REGOLITH) :
    Spec.enabled s q = SpecId.enabled s q := by
  revert s q
  decide

/-- Witness for C10 at s = SHANGHAI, q = CANCUN. -/
theorem c10_trait_standalone_agree_witness :
    SpecId.SHANGHAI ∈ specBindings ∧ SpecId.SHANGHAI ≠ SpecId.BEDROCK ∧
    SpecId.SHANGHAI ≠ SpecId.REGOLITH ∧
    Spec.enabled SpecId.SHANGHAI SpecId.CANCUN =
      SpecId.enabled SpecId.SHANGHAI SpecId.CANCUN :=
  ⟨by decide, by decide, by decide,
   c10_trait_standalone_agree SpecId.SHANGHAI SpecId.CANCUN (by decide)
     (by decide) (by decide)⟩
